import Mathlib

/-!
Verification of the prover-coordination core: a shallow embedding of the
worker rounds loop and heartbeat loop (core/prover/src/lib.rs), the
websocket subscription handlers (rpc_subscriptions.rs), and the
environment-driven configuration loading (config_options.rs), together
with spec-level models of the Job Registry operations whose implementation
lives outside the provided sources.
-/

/-! ## Worker error taxonomy (BabyProverError in lib.rs) -/

inductive BabyProverError where
  | Api (msg : String)
  | Internal (msg : String)
  | Stop
  deriving Repr, DecidableEq

/-! ## Prover data and proofs, abstracted as opaque blobs

The worker only threads these values through to the circuit and the
Groth16 oracle; their internal structure is irrelevant to the control
flow being verified, so each is a wrapper around a numeric tag. -/

structure ProverData where
  oldRoot : Nat
  newRoot : Nat
  publicDataCommitment : Nat
  deriving Repr, DecidableEq

structure GrothProof where
  tag : Nat
  deriving Repr, DecidableEq

/-! ## The ApiClient and local oracles, as one record of outcomes

`RoundEnv` fixes the outcome of every external call a single round can
make: the `ApiClient` methods (`block_to_prove`, `prover_data`,
`publish`) and the local Groth16 oracles (`create_random_proof`,
`verify_proof`).  `block_to_prove` returns `Option (Int × Int)` for
`Option<(i64, i32)>`: the block number and the job id. -/

structure RoundEnv where
  blockToProve : Except String (Option (Int × Int))
  proverData : Int → Except String ProverData
  createProof : Except String GrothProof
  verifyProof : GrothProof → Nat → Except String Bool
  publish : Int → GrothProof → Nat → Except String Unit

/-! ## Observable events of one round

Each constructor records one externally visible action of
`BabyProver::next_round`, in program order: a network call to the api
server, a message sent on the heartbeat channel, or a local
compute/verify step. -/

inductive RoundEvent where
  | callBlockToProve
  | sendHeartbeat (jobId : Int) (quit : Bool)
  | callProverData (block : Int)
  | computeProof
  | verifyProofLocally
  | callPublish (block : Int)
  deriving Repr, DecidableEq

/-- Embedding of `BabyProver::next_round` (lib.rs lines 123-213): returns
the trace of observable events together with the round's result.  The
control flow mirrors the source: an api failure on `block_to_prove` is an
`Api` error; `None` (or a returned `job_id` of 0) sends `job_id = 0` to
the heartbeat channel and ends the round; otherwise the fresh job id is
sent to the heartbeat channel, prover data is fetched, a proof is
created, locally verified, and published. -/
def next_round (env : RoundEnv) : List RoundEvent × Except BabyProverError Unit :=
  match env.blockToProve with
  | .error e =>
    ([.callBlockToProve], .error (.Api ("failed to get block to prove " ++ e)))
  | .ok blockToProve =>
    let bj := match blockToProve with
      | some b => b
      | none => ((0 : Int), (0 : Int))
    let block := bj.1
    let job_id := bj.2
    let tr0 := [RoundEvent.callBlockToProve, RoundEvent.sendHeartbeat job_id false]
    if job_id = 0 then (tr0, .ok ())
    else
      match env.proverData block with
      | .error e =>
        (tr0 ++ [.callProverData block],
          .error (.Api ("could not get prover data for block " ++ toString block ++ ": " ++ e)))
      | .ok pd =>
        let tr1 := tr0 ++ [RoundEvent.callProverData block, RoundEvent.computeProof]
        match env.createProof with
        | .error e => (tr1, .error (.Internal ("failed to create a proof: " ++ e)))
        | .ok p =>
          let tr2 := tr1 ++ [RoundEvent.verifyProofLocally]
          match env.verifyProof p pd.publicDataCommitment with
          | .error e =>
            (tr2, .error (.Internal ("failed to verify created proof: " ++ e)))
          | .ok ok =>
            if ok then
              let tr3 := tr2 ++ [RoundEvent.callPublish block]
              match env.publish block p pd.publicDataCommitment with
              | .error e => (tr3, .error (.Api ("failed to publish proof: " ++ e)))
              | .ok _ => (tr3, .ok ())
            else
              (tr2, .error (.Internal "created proof did not pass verification"))

/-! ## The rounds loop

`run_rounds` (lib.rs lines 97-121) loops while the shared stop flag is
unset.  Each iteration is modelled by a `RoundsIter`: the value the loop
condition reads from `stop_signal` at the top of the iteration, and the
outcomes of that round's external calls.  The finite schedule is a model
artifact: a `none` verdict means the schedule ran out while the loop was
still running. -/

structure RoundsIter where
  stopFlag : Bool
  env : RoundEnv

/-- Embedding of `BabyProver::run_rounds`: if the stop flag reads true the
loop exits with `Stop`; otherwise the round runs, an `Internal` error is
returned immediately, any other outcome (success or a logged `Api` error)
is followed by the next iteration. -/
def run_rounds : List RoundsIter → Option BabyProverError × List RoundEvent
  | [] => (none, [])
  | it :: rest =>
    if it.stopFlag then (some .Stop, [])
    else
      let r := next_round it.env
      match r.2 with
      | .error (.Internal s) => (some (.Internal s), r.1)
      | _ =>
        let k := run_rounds rest
        (k.1, r.1 ++ k.2)

/-! ## Concrete round environments used as evaluation witnesses -/

/-- A round in which the server reports no block to prove. -/
def envNoJob : RoundEnv :=
  { blockToProve := .ok none
    proverData := fun _ => .ok ⟨0, 0, 0⟩
    createProof := .ok ⟨0⟩
    verifyProof := fun _ _ => .ok true
    publish := fun _ _ _ => .ok () }

/-- A fully successful round for block 1 with job id 7. -/
def envJobOk : RoundEnv :=
  { blockToProve := .ok (some (1, 7))
    proverData := fun _ => .ok ⟨0, 0, 0⟩
    createProof := .ok ⟨0⟩
    verifyProof := fun _ _ => .ok true
    publish := fun _ _ _ => .ok () }

/-- A round whose locally created proof fails self-verification. -/
def envVerifyFalse : RoundEnv :=
  { blockToProve := .ok (some (1, 7))
    proverData := fun _ => .ok ⟨0, 0, 0⟩
    createProof := .ok ⟨0⟩
    verifyProof := fun _ _ => .ok false
    publish := fun _ _ _ => .ok () }

/-- A round whose publish call to the Registry fails. -/
def envPublishFail : RoundEnv :=
  { blockToProve := .ok (some (1, 7))
    proverData := fun _ => .ok ⟨0, 0, 0⟩
    createProof := .ok ⟨0⟩
    verifyProof := fun _ _ => .ok true
    publish := fun _ _ _ => .error "connection reset" }

/-- C1: when `block_to_prove` yields no job (`None` or a pair with job id
0), the round sends `job_id = 0` with `quit = false` to the heartbeat
stream and ends successfully, with no prover-data fetch, no proof
computation and no publish; when it yields a job with nonzero id, that id
is sent to the heartbeat stream before any further event of the round, in
particular before the prover-data fetch. -/
theorem c1_no_job_sentinel_and_heartbeat_first (env : RoundEnv) (b j : Int) :
    (env.blockToProve = .ok none ∨ env.blockToProve = .ok (some (b, 0)) →
      next_round env = ([.callBlockToProve, .sendHeartbeat 0 false], .ok ())) ∧
    (env.blockToProve = .ok (some (b, j)) → j ≠ 0 →
      ∃ rest, (next_round env).1 =
        .callBlockToProve :: .sendHeartbeat j false :: rest) := by
  constructor
  · rintro (h | h) <;> simp [next_round, h]
  · intro h hj
    simp only [next_round, h]
    rcases hpd : env.proverData b with e | pd
    · exact ⟨[.callProverData b], by simp [hj, hpd]⟩
    · rcases hcp : env.createProof with e | p
      · exact ⟨[.callProverData b, .computeProof], by simp [hj, hpd, hcp]⟩
      · rcases hv : env.verifyProof p pd.publicDataCommitment with e | ok
        · exact ⟨[.callProverData b, .computeProof, .verifyProofLocally],
            by simp [hj, hpd, hcp, hv]⟩
        · rcases ok
          · exact ⟨[.callProverData b, .computeProof, .verifyProofLocally],
              by simp [hj, hpd, hcp, hv]⟩
          · rcases hp : env.publish b p pd.publicDataCommitment with e | u <;>
              exact ⟨[.callProverData b, .computeProof, .verifyProofLocally, .callPublish b],
                by simp [hj, hpd, hcp, hv, hp]⟩

/-- C1 witness: evaluation of the C1 theorem on the concrete
environments `envNoJob` and `envJobOk`. -/
theorem c1_no_job_sentinel_witness :
    next_round envNoJob = ([.callBlockToProve, .sendHeartbeat 0 false], .ok ()) ∧
    ∃ rest, (next_round envJobOk).1 =
      .callBlockToProve :: .sendHeartbeat 7 false :: rest :=
  ⟨(c1_no_job_sentinel_and_heartbeat_first envNoJob 0 0).1 (Or.inl rfl),
   (c1_no_job_sentinel_and_heartbeat_first envJobOk 1 7).2 rfl (by decide)⟩

/-- C2: when a proof has been created, the round verifies it locally; if
the verification call errors or reports the proof invalid, the round
returns an `Internal` error and the rounds loop terminates immediately,
returning that same `Internal` error regardless of any scheduled later
rounds. -/
theorem c2_verify_failure_internal_exits (env : RoundEnv) (b j : Int)
    (pd : ProverData) (p : GrothProof) (e : String)
    (hb : env.blockToProve = .ok (some (b, j))) (hj : j ≠ 0)
    (hpd : env.proverData b = .ok pd) (hcp : env.createProof = .ok p)
    (hv : env.verifyProof p pd.publicDataCommitment = .error e ∨
          env.verifyProof p pd.publicDataCommitment = .ok false) :
    ∃ s, (next_round env).2 = .error (.Internal s) ∧
      RoundEvent.verifyProofLocally ∈ (next_round env).1 ∧
      ∀ rest, run_rounds (⟨false, env⟩ :: rest) =
        (some (.Internal s), (next_round env).1) := by
  rcases hv with hv | hv
  · refine ⟨"failed to verify created proof: " ++ e, ?_, ?_, ?_⟩
    · simp [next_round, hb, hj, hpd, hcp, hv]
    · simp [next_round, hb, hj, hpd, hcp, hv]
    · intro rest
      simp only [run_rounds]
      simp [next_round, hb, hj, hpd, hcp, hv]
  · refine ⟨"created proof did not pass verification", ?_, ?_, ?_⟩
    · simp [next_round, hb, hj, hpd, hcp, hv]
    · simp [next_round, hb, hj, hpd, hcp, hv]
    · intro rest
      simp only [run_rounds]
      simp [next_round, hb, hj, hpd, hcp, hv]

/-- C2 witness: evaluation of the C2 theorem on the concrete environment
whose proof fails self-verification. -/
theorem c2_verify_failure_witness :
    ∃ s, (next_round envVerifyFalse).2 = .error (.Internal s) ∧
      RoundEvent.verifyProofLocally ∈ (next_round envVerifyFalse).1 ∧
      ∀ rest, run_rounds (⟨false, envVerifyFalse⟩ :: rest) =
        (some (.Internal s), (next_round envVerifyFalse).1) :=
  c2_verify_failure_internal_exits envVerifyFalse 1 7 ⟨0, 0, 0⟩ ⟨0⟩ ""
    rfl (by decide) rfl rfl (Or.inr rfl)

/-- Helper: the rounds loop only ever terminates with `Stop` (from the
stop flag) or with an `Internal` error; an `Api` error never ends it. -/
theorem run_rounds_terminal_verdict (sched : List RoundsIter) (err : BabyProverError)
    (h : (run_rounds sched).1 = some err) :
    err = .Stop ∨ ∃ s, err = .Internal s := by
  induction sched with
  | nil => simp [run_rounds] at h
  | cons it rest ih =>
    by_cases hf : it.stopFlag
    · simp [run_rounds, hf] at h
      exact Or.inl h.symm
    · rcases h2 : (next_round it.env).2 with be | u
      · cases be with
        | Api s =>
          simp [run_rounds, hf, h2] at h
          exact ih h
        | Internal s =>
          simp [run_rounds, hf, h2] at h
          exact Or.inr ⟨s, h.symm⟩
        | Stop =>
          simp [run_rounds, hf, h2] at h
          exact ih h
      · simp [run_rounds, hf, h2] at h
        exact ih h

/-- C3: a failing publish call turns the round into an `Api` error; the
rounds loop then continues with the remaining rounds (its verdict is that
of the rest of the schedule), and in general the loop only terminates
with `Stop` or an `Internal` error — never because of an `Api` error. -/
theorem c3_publish_failure_api_continues (env : RoundEnv) (b j : Int)
    (pd : ProverData) (p : GrothProof) (e : String)
    (hb : env.blockToProve = .ok (some (b, j))) (hj : j ≠ 0)
    (hpd : env.proverData b = .ok pd) (hcp : env.createProof = .ok p)
    (hv : env.verifyProof p pd.publicDataCommitment = .ok true)
    (hp : env.publish b p pd.publicDataCommitment = .error e) :
    (next_round env).2 = .error (.Api ("failed to publish proof: " ++ e)) ∧
    (∀ rest, run_rounds (⟨false, env⟩ :: rest) =
      ((run_rounds rest).1, (next_round env).1 ++ (run_rounds rest).2)) ∧
    (∀ sched err, (run_rounds sched).1 = some err →
      err = .Stop ∨ ∃ s, err = .Internal s) := by
  refine ⟨?_, ?_, fun sched err h => run_rounds_terminal_verdict sched err h⟩
  · simp [next_round, hb, hj, hpd, hcp, hv, hp]
  · intro rest
    have h2 : (next_round env).2 = .error (.Api ("failed to publish proof: " ++ e)) := by
      simp [next_round, hb, hj, hpd, hcp, hv, hp]
    simp [run_rounds, h2]

/-- C3 witness: evaluation of the C3 theorem on the concrete environment
whose publish call fails. -/
theorem c3_publish_failure_witness :
    (next_round envPublishFail).2 =
      .error (.Api ("failed to publish proof: " ++ "connection reset")) ∧
    (∀ rest, run_rounds (⟨false, envPublishFail⟩ :: rest) =
      ((run_rounds rest).1, (next_round envPublishFail).1 ++ (run_rounds rest).2)) ∧
    (∀ sched err, (run_rounds sched).1 = some err →
      err = .Stop ∨ ∃ s, err = .Internal s) :=
  c3_publish_failure_api_continues envPublishFail 1 7 ⟨0, 0, 0⟩ ⟨0⟩
    "connection reset" rfl (by decide) rfl rfl rfl rfl

/-! ## Messages on the heartbeat channel

`start` (lib.rs lines 59-76) wires the rounds thread to the heartbeat
routine through an mpsc channel carrying `(job_id, quit)` pairs: the
rounds thread sends one pair per round from inside `next_round`, and,
once `run_rounds` has returned, sends the single `(0, true)` quit
request. -/

/-- The `(job_id, quit)` pairs sent on the heartbeat channel by a trace. -/
def heartbeatMessages (tr : List RoundEvent) : List (Int × Bool) :=
  tr.filterMap fun ev =>
    match ev with
    | .sendHeartbeat j q => some (j, q)
    | _ => none

/-- The full message sequence the rounds side of `start` puts on the
heartbeat channel: the per-round messages, then the one quit request sent
after `run_rounds` returns. -/
def start_messages (sched : List RoundsIter) : List (Int × Bool) :=
  heartbeatMessages (run_rounds sched).2 ++ [((0 : Int), true)]

/-- Helper: a single round only ever sends `quit = false` messages. -/
theorem next_round_heartbeats_not_quit (env : RoundEnv) :
    ∀ m ∈ heartbeatMessages (next_round env).1, m.2 = false := by
  intro m hm
  rcases hb : env.blockToProve with e | ob
  · simp [next_round, hb, heartbeatMessages] at hm
  · rcases ob with _ | ⟨b, j⟩
    · simp [next_round, hb, heartbeatMessages] at hm
      simp [hm]
    · by_cases hj : j = 0
      · subst hj
        simp [next_round, hb, heartbeatMessages] at hm
        simp [hm]
      · rcases hpd : env.proverData b with e | pd
        · simp [next_round, hb, hj, hpd, heartbeatMessages] at hm
          simp [hm]
        · rcases hcp : env.createProof with e | p
          · simp [next_round, hb, hj, hpd, hcp, heartbeatMessages] at hm
            simp [hm]
          · rcases hv : env.verifyProof p pd.publicDataCommitment with e | ok
            · simp [next_round, hb, hj, hpd, hcp, hv, heartbeatMessages] at hm
              simp [hm]
            · rcases ok
              · simp [next_round, hb, hj, hpd, hcp, hv, heartbeatMessages] at hm
                simp [hm]
              · rcases hp : env.publish b p pd.publicDataCommitment with e | u <;>
                · simp [next_round, hb, hj, hpd, hcp, hv, hp, heartbeatMessages] at hm
                  simp [hm]

/-- Helper: a whole run of the rounds loop only ever sends `quit = false`
messages on the heartbeat channel. -/
theorem run_rounds_heartbeats_not_quit (sched : List RoundsIter) :
    ∀ m ∈ heartbeatMessages (run_rounds sched).2, m.2 = false := by
  induction sched with
  | nil => simp [run_rounds, heartbeatMessages]
  | cons it rest ih =>
    intro m hm
    by_cases hf : it.stopFlag
    · simp [run_rounds, hf, heartbeatMessages] at hm
    · rcases h2 : (next_round it.env).2 with be | u
      · cases be with
        | Api s =>
          simp only [run_rounds, hf, h2, Bool.false_eq_true, if_false,
            heartbeatMessages, List.filterMap_append] at hm
          rcases List.mem_append.mp hm with hA | hB
          · exact next_round_heartbeats_not_quit it.env m hA
          · exact ih m hB
        | Internal s =>
          simp only [run_rounds, hf, h2, Bool.false_eq_true, if_false] at hm
          exact next_round_heartbeats_not_quit it.env m hm
        | Stop =>
          simp only [run_rounds, hf, h2, Bool.false_eq_true, if_false,
            heartbeatMessages, List.filterMap_append] at hm
          rcases List.mem_append.mp hm with hA | hB
          · exact next_round_heartbeats_not_quit it.env m hA
          · exact ih m hB
      · simp only [run_rounds, hf, h2, Bool.false_eq_true, if_false,
          heartbeatMessages, List.filterMap_append] at hm
        rcases List.mem_append.mp hm with hA | hB
        · exact next_round_heartbeats_not_quit it.env m hA
        · exact ih m hB

/-! ## The heartbeat routine

`keep_sending_work_heartbeats` (lib.rs lines 215-238) loops while the
stop flag is unset: each iteration sleeps `heartbeat_interval`, polls the
channel with `try_recv` (an empty channel keeps the current job id),
returns on a quit message, and otherwise calls `working_on(job_id)` when
the current id is nonzero, merely logging a failed call.  One `HBTick`
records what one iteration observes: the stop-flag value read at the top
of the loop, the result of `try_recv` (`none` for an empty channel), and
whether the `working_on` call, if made, succeeds.  The `try_recv`
disconnection panic cannot occur before the quit message, which the
sender transmits before dropping the channel, so it is not modelled. -/

structure HBTick where
  stopFlag : Bool
  msg : Option (Int × Bool)
  workingOnOk : Bool

/-- How the heartbeat routine ends: on a quit message, on the stop flag,
or still running when the modelled finite schedule runs out. -/
inductive HBExit where
  | quit
  | stopped
  | pending
  deriving Repr, DecidableEq

/-- Embedding of the loop body of `keep_sending_work_heartbeats`, carrying
the current job id.  The result pairs the list of `working_on` calls made
(job id and the call's success) with how the loop ended. -/
def heartbeatLoop : List HBTick → Int → List (Int × Bool) × HBExit
  | [], _ => ([], .pending)
  | t :: rest, jobId =>
    if t.stopFlag then ([], .stopped)
    else
      let m := match t.msg with
        | some v => v
        | none => (jobId, false)
      if m.2 then ([], .quit)
      else
        if m.1 ≠ 0 then
          let k := heartbeatLoop rest m.1
          ((m.1, t.workingOnOk) :: k.1, k.2)
        else heartbeatLoop rest m.1

/-- Embedding of `keep_sending_work_heartbeats`: the loop starts with the
current job id 0. -/
def keep_sending_work_heartbeats (ticks : List HBTick) : List (Int × Bool) × HBExit :=
  heartbeatLoop ticks 0

/-- C4: the heartbeat routine starts from job id 0; on a tick that
carries a fresh job id (or keeps the current one on an empty channel) it
calls `working_on` exactly when that id is nonzero, and it continues with
the rest of the schedule whatever the outcome of the call; it returns as
soon as a quit message arrives; and the rounds side sends the quit
message exactly once, as the last message on the channel, after the
rounds loop has exited. -/
theorem c4_heartbeat_stream (ticks rest : List HBTick) (t : HBTick)
    (jid j : Int) (sched : List RoundsIter) :
    keep_sending_work_heartbeats ticks = heartbeatLoop ticks 0 ∧
    (t.stopFlag = false → (t.msg = some (j, false) ∨ (t.msg = none ∧ j = jid)) →
      heartbeatLoop (t :: rest) jid =
        (if j ≠ 0 then
          ((j, t.workingOnOk) :: (heartbeatLoop rest j).1, (heartbeatLoop rest j).2)
         else heartbeatLoop rest j)) ∧
    (t.stopFlag = false → t.msg = some (j, true) →
      heartbeatLoop (t :: rest) jid = ([], .quit)) ∧
    ((run_rounds sched).1.isSome = true →
      ∃ pre, start_messages sched = pre ++ [((0 : Int), true)] ∧
        ∀ m ∈ pre, m.2 = false) := by
  refine ⟨rfl, ?_, ?_, ?_⟩
  · rintro hf (hm | ⟨hm, hj⟩)
    · by_cases hz : j = 0 <;> simp [heartbeatLoop, hf, hm, hz]
    · subst hj
      by_cases hz : j = 0 <;> simp [heartbeatLoop, hf, hm, hz]
  · intro hf hm
    simp [heartbeatLoop, hf, hm]
  · intro _
    exact ⟨heartbeatMessages (run_rounds sched).2, rfl,
      run_rounds_heartbeats_not_quit sched⟩

/-- C4 witness: evaluation of the C4 theorem on concrete ticks — one
tick taking job 5 and calling `working_on`, one quit tick, and a
one-round schedule stopped by the flag. -/
theorem c4_heartbeat_stream_witness :
    heartbeatLoop [⟨false, some (5, false), true⟩] 0 = ([(5, true)], .pending) ∧
    heartbeatLoop [⟨false, some (5, true), false⟩] 3 = ([], .quit) ∧
    ∃ pre, start_messages [⟨true, envJobOk⟩] = pre ++ [((0 : Int), true)] ∧
      ∀ m ∈ pre, m.2 = false := by
  have h := c4_heartbeat_stream [] [] ⟨false, some (5, false), true⟩ 0 5 [⟨true, envJobOk⟩]
  have h2 := c4_heartbeat_stream [] [] ⟨false, some (5, true), false⟩ 3 5 [⟨true, envJobOk⟩]
  refine ⟨?_, ?_, ?_⟩
  · have hstep := h.2.1 rfl (Or.inl rfl)
    rw [hstep]
    simp [heartbeatLoop]
  · exact h2.2.2.1 rfl rfl
  · exact h.2.2.2 rfl

/-! ## Timed view of the rounds loop, for the stop-signal property

`run_rounds` reads `stop_signal` exactly once per iteration, at the top
of the `while` loop; `next_round` never reads it.  To reason about when
the flag is read relative to the round's network calls, each observable
step is given a time index: step `i` of the produced list happens at time
`t + i`, and a `checkFlag` step at time `u` reads `flags u`. -/

inductive NetCall where
  | blockToProveCall
  | proverDataCall (block : Int)
  | publishCall (block : Int)
  deriving Repr, DecidableEq

inductive WStep where
  | checkFlag (value : Bool)
  | net (c : NetCall)
  | sendHB (jobId : Int) (quit : Bool)
  | compute
  | verifyLocal
  | sleepStep
  deriving Repr, DecidableEq

/-- View of a round event as a timed step. -/
def toWStep : RoundEvent → WStep
  | .callBlockToProve => .net .blockToProveCall
  | .sendHeartbeat j q => .sendHB j q
  | .callProverData b => .net (.proverDataCall b)
  | .computeProof => .compute
  | .verifyProofLocally => .verifyLocal
  | .callPublish b => .net (.publishCall b)

/-- Timed embedding of `run_rounds`: `flags u` is the value of the shared
stop flag at time `u`.  Each iteration reads the flag once, at its first
step; the round's events follow without any further flag read, then the
`cycle_wait` sleep, then the next iteration. -/
def run_rounds_timed (flags : Nat → Bool) :
    List RoundEnv → Nat → List WStep × Option BabyProverError
  | [], _ => ([], none)
  | env :: rest, t =>
    if flags t then ([.checkFlag true], some .Stop)
    else
      let r := next_round env
      let steps := WStep.checkFlag false :: r.1.map toWStep
      match r.2 with
      | .error (.Internal s) => (steps, some (.Internal s))
      | _ =>
        let steps2 := steps ++ [WStep.sleepStep]
        let k := run_rounds_timed flags rest (t + steps2.length)
        (steps2 ++ k.1, k.2)

/-- A stop flag that becomes (and stays) set at time 2: during a round
that started at time 0, right after the `block_to_prove` network call at
time 1. -/
def stopFlagsMidRound : Nat → Bool := fun n => decide (2 ≤ n)

/-- C5 counterexample: with the stop flag set from time 2 onwards — after
the round's `block_to_prove` call at time 1 — the rounds stream still
makes the `prover_data` network call at time 3 and the `publish` network
call at time 6, and does not exit with `Stop`: the flag is only read at
the top of the loop, not between the network calls of a round. -/
theorem c5_counterexample_mid_round_flag :
    stopFlagsMidRound 2 = true ∧ stopFlagsMidRound 3 = true ∧
    stopFlagsMidRound 6 = true ∧
    (run_rounds_timed stopFlagsMidRound [envJobOk] 0).1[3]? =
      some (.net (.proverDataCall 1)) ∧
    (run_rounds_timed stopFlagsMidRound [envJobOk] 0).1[6]? =
      some (.net (.publishCall 1)) ∧
    (run_rounds_timed stopFlagsMidRound [envJobOk] 0).2 = none := by
  refine ⟨rfl, rfl, rfl, rfl, rfl, rfl⟩

/-- C5 as amended: the stop flag is read once at the top of every rounds
iteration and once at the top of every heartbeat iteration; a read that
observes the flag set makes the rounds stream exit immediately with
`Stop` — before any network call of that iteration — and makes the
heartbeat stream exit; the flag is not consulted between the network
calls of a round already in progress. -/
theorem c5_stop_checked_at_loop_top (flags : Nat → Bool) (env : RoundEnv)
    (envs : List RoundEnv) (t : Nat) (ticks : List HBTick) (tk : HBTick)
    (jid : Int) :
    (flags t = true →
      run_rounds_timed flags (env :: envs) t = ([.checkFlag true], some .Stop)) ∧
    (tk.stopFlag = true → heartbeatLoop (tk :: ticks) jid = ([], .stopped)) := by
  constructor
  · intro h
    simp [run_rounds_timed, h]
  · intro h
    simp [heartbeatLoop, h]

/-- C5 witness: evaluation of the amended C5 theorem with the flag set at
time 0 and a stopped heartbeat tick. -/
theorem c5_stop_checked_witness :
    run_rounds_timed (fun _ => true) [envJobOk] 0 =
      ([.checkFlag true], some .Stop) ∧
    heartbeatLoop [⟨true, none, true⟩] 5 = ([], .stopped) :=
  ⟨(c5_stop_checked_at_loop_top (fun _ => true) envJobOk [] 0 [] ⟨true, none, true⟩ 5).1 rfl,
   (c5_stop_checked_at_loop_top (fun _ => true) envJobOk [] 0 [] ⟨true, none, true⟩ 5).2 rfl⟩

/-! ## Job Registry lease state (spec section 3 and 4.1)

The Registry implementation (`prover/src/server.rs`, `client.rs` and the
storage layer) is not among the provided sources — only its trait
declaration, tests and callers are — so the operations below are
modelled from the spec.  Times are natural numbers; the spec condition
`last_heartbeat_at < now - prover_timeout` is written additively as
`last_heartbeat_at + prover_timeout < now` to avoid truncated
subtraction. -/

inductive Lease where
  | Free
  | Held (worker : String) (lastHeartbeatAt : Nat)
  | Done (proof : Nat)
  deriving Repr, DecidableEq

structure Job where
  blockNumber : Nat
  jobId : Nat
  createdAt : Nat
  lease : Lease
  deriving Repr, DecidableEq

/-- Whether a job may be handed out: it is `Free`, or its lease has
expired (`last_heartbeat_at < now - prover_timeout`); `Done` is
terminal. -/
def leaseSelectable (l : Lease) (proverTimeout now : Nat) : Bool :=
  match l with
  | .Free => true
  | .Held _ hb => hb + proverTimeout < now
  | .Done _ => false

/-- Selection ordering from the spec: lowest block number first, ties
broken by earliest creation time. -/
def jobBefore (a b : Job) : Bool :=
  a.blockNumber < b.blockNumber ∨
    (a.blockNumber = b.blockNumber ∧ a.createdAt ≤ b.createdAt)

/-- The minimum of a candidate list under the selection ordering. -/
def pickJob : List Job → Option Job
  | [] => none
  | j :: rest =>
    match pickJob rest with
    | none => some j
    | some k => if jobBefore j k then some j else some k

/-- Modelled from the spec: `next_unverified_commit(worker_name,
prover_timeout)` of the Job Registry (spec section 4.1), whose
implementation is not among the provided sources.  It atomically selects
the smallest-block job that is Free or expired-Held, transitions it to
`Held{worker_name, now}` under a fresh job id, and returns the block and
job id; it returns `none` when no job qualifies. -/
def next_unverified_commit (jobs : List Job) (worker : String)
    (proverTimeout now freshJobId : Nat) : List Job × Option (Nat × Nat) :=
  match pickJob (jobs.filter fun j => leaseSelectable j.lease proverTimeout now) with
  | none => (jobs, none)
  | some j =>
    (jobs.map fun k =>
      if k.blockNumber = j.blockNumber then
        { k with jobId := freshJobId, lease := .Held worker now }
      else k,
     some (j.blockNumber, freshJobId))

/-- Helper: `pickJob` returns an element of its input list. -/
theorem pickJob_mem (l : List Job) (j : Job) (h : pickJob l = some j) :
    j ∈ l := by
  induction l with
  | nil => simp [pickJob] at h
  | cons a rest ih =>
    rcases hr : pickJob rest with _ | k
    · simp [pickJob, hr] at h
      simp [h]
    · simp only [pickJob, hr] at h
      by_cases hb : jobBefore a k
      · simp [hb] at h
        simp [h]
      · simp [hb] at h
        subst h
        exact List.mem_cons_of_mem a (ih hr)

/-- A one-job registry: block 17 held by worker A whose last heartbeat
(at time 0) lies further back than the timeout of 3 at time 10. -/
def jobs17 : List Job := [⟨17, 1, 0, .Held "A" 0⟩]

/-- C6: leases do not overlap — whenever `next_unverified_commit` grants
a lease on a block (in a registry holding at most one job per block, per
the data-model invariant), every lease previously held on that block had
already expired: its `last_heartbeat_at` is older than `now` minus
`prover_timeout`. -/
theorem c6_at_most_one_active_lease (jobs : List Job) (worker : String)
    (proverTimeout now freshJobId : Nat) (b jid : Nat)
    (huniq : ∀ k1 ∈ jobs, ∀ k2 ∈ jobs, k1.blockNumber = k2.blockNumber → k1 = k2)
    (hgrant : (next_unverified_commit jobs worker proverTimeout now freshJobId).2 =
      some (b, jid)) :
    ∀ k ∈ jobs, k.blockNumber = b →
      ∀ w hb, k.lease = .Held w hb → hb + proverTimeout < now := by
  intro k hk hkb w hb hkl
  rcases hpick : pickJob (jobs.filter fun j => leaseSelectable j.lease proverTimeout now)
    with _ | j
  · simp [next_unverified_commit, hpick] at hgrant
  · simp only [next_unverified_commit, hpick, Option.some.injEq, Prod.mk.injEq] at hgrant
    obtain ⟨hb1, _⟩ := hgrant
    have hjmem := pickJob_mem _ j hpick
    have hjin : j ∈ jobs := (List.mem_filter.mp hjmem).1
    have hjsel : leaseSelectable j.lease proverTimeout now = true :=
      (List.mem_filter.mp hjmem).2
    have hkj : k = j := huniq k hk j hjin (by rw [hkb, ← hb1])
    subst hkj
    rw [hkl] at hjsel
    simpa [leaseSelectable] using hjsel

/-- C6 witness: evaluation of the C6 theorem on the one-job registry
`jobs17`, where worker B is granted block 17 at time 10 and worker A's
stale lease (heartbeat at 0, timeout 3) had expired. -/
theorem c6_at_most_one_active_lease_witness :
    (next_unverified_commit jobs17 "B" 3 10 2).2 = some (17, 2) ∧
    ∀ k ∈ jobs17, k.blockNumber = 17 →
      ∀ w hb, k.lease = .Held w hb → hb + 3 < 10 :=
  ⟨rfl, c6_at_most_one_active_lease jobs17 "B" 3 10 2 17 2 (by decide) rfl⟩

/-! ## Worker registration (spec sections 3, 4.1 and 8) -/

inductive RegistryError where
  | InvalidArgument (msg : String)
  deriving Repr, DecidableEq

structure WorkerRecord where
  workerId : Nat
  workerName : String
  startedAt : Nat
  stoppedAt : Option Nat
  deriving Repr, DecidableEq

/-- Modelled from the spec: `register_prover(worker_name) → worker_id`
(spec section 4.1), whose server-side implementation is not among the
provided sources.  It fails with `InvalidArgument` when `worker_name` is
empty; otherwise it always succeeds, allocating a fresh worker id and
recording `started_at = now()`. -/
def register_prover (workers : List WorkerRecord) (workerName : String)
    (now : Nat) : Except RegistryError (List WorkerRecord × Nat) :=
  if workerName = "" then .error (.InvalidArgument "empty worker name")
  else
    .ok (workers ++ [⟨workers.length, workerName, now, none⟩], workers.length)

/-- C9: registering with an empty worker name yields an
`InvalidArgument` error and no worker id, while registering any
non-empty name succeeds and records `started_at = now`. -/
theorem c9_register_prover_empty_name (workers : List WorkerRecord) (now : Nat) :
    (∃ m, register_prover workers "" now = .error (.InvalidArgument m)) ∧
    ∀ name, name ≠ "" →
      ∃ ws id, register_prover workers name now = .ok (ws, id) ∧
        ∃ r ∈ ws, r.workerId = id ∧ r.workerName = name ∧ r.startedAt = now := by
  constructor
  · exact ⟨"empty worker name", by simp [register_prover]⟩
  · intro name hname
    refine ⟨workers ++ [⟨workers.length, name, now, none⟩], workers.length, ?_, ?_⟩
    · simp [register_prover, hname]
    · exact ⟨⟨workers.length, name, now, none⟩, by simp, rfl, rfl, rfl⟩

/-- C9 witness: evaluation of the C9 theorem on an empty registry at
time 5 with the names `""` and `"foo"`. -/
theorem c9_register_prover_witness :
    (∃ m, register_prover [] "" 5 = .error (.InvalidArgument m)) ∧
    (∃ ws id, register_prover [] "foo" 5 = .ok (ws, id) ∧
      ∃ r ∈ ws, r.workerId = id ∧ r.workerName = "foo" ∧ r.startedAt = 5) :=
  ⟨(c9_register_prover_empty_name [] 5).1,
   (c9_register_prover_empty_name [] 5).2 "foo" (by decide)⟩

/-! ## The Notifier command channel and the websocket handlers

`start_ws_server` (rpc_subscriptions.rs lines 184-261) creates the
Notifier command channel with `mpsc::channel(2048)` and hands its sender
to `RpcSubApp`.  Every subscribe and unsubscribe method enqueues its
command with `try_send(..).unwrap_or_default()`: a failed non-blocking
send is discarded.  The futures mpsc channel is modelled as a bounded
FIFO buffer. -/

structure BoundedChannel (α : Type) where
  capacity : Nat
  buffer : List α

/-- Non-blocking send: the message is appended when the buffer has room,
otherwise the channel is unchanged and the send reports failure. -/
def trySend {α : Type} (ch : BoundedChannel α) (msg : α) : BoundedChannel α × Bool :=
  if ch.buffer.length < ch.capacity then
    ({ ch with buffer := ch.buffer ++ [msg] }, true)
  else (ch, false)

/-- The `ActionType` a subscription watches for. -/
inductive ActionType where
  | commit
  | verify
  deriving Repr, DecidableEq

/-- The `EventSubscribeRequest` payloads; hashes, serial ids, addresses
and subscriber sinks are opaque numeric tags here. -/
inductive EventSubscribeRequest where
  | Transaction (hash : Nat) (action : ActionType) (subscriber : Nat)
  | PriorityOp (serialId : Nat) (action : ActionType) (subscriber : Nat)
  | Account (address : Nat) (action : ActionType) (subscriber : Nat)
  deriving Repr, DecidableEq

/-- The `EventNotifierRequest` commands carried by the channel. -/
inductive EventNotifierRequest where
  | Sub (r : EventSubscribeRequest)
  | Unsub (id : Nat)
  deriving Repr, DecidableEq

/-- A jsonrpc-core result: `Ok` or a structured rpc error (opaque code). -/
inductive RpcResult (α : Type) where
  | ok (a : α)
  | rpcError (code : Int)
  deriving Repr, DecidableEq

/-- The channel `start_ws_server` creates with `mpsc::channel(2048)`. -/
def mkEventSubChannel : BoundedChannel EventNotifierRequest :=
  { capacity := 2048, buffer := [] }

/-- Embedding of `RpcSubApp::subscribe_tx`: try-send the Sub command,
discarding failure; the method returns nothing to the caller. -/
def subscribe_tx (ch : BoundedChannel EventNotifierRequest) (hash : Nat)
    (action : ActionType) (subscriber : Nat) : BoundedChannel EventNotifierRequest :=
  (trySend ch (.Sub (.Transaction hash action subscriber))).1

/-- Embedding of `RpcSubApp::unsubscribe_tx`: try-send the Unsub command,
discarding failure, and answer `Ok(true)`. -/
def unsubscribe_tx (ch : BoundedChannel EventNotifierRequest) (id : Nat) :
    BoundedChannel EventNotifierRequest × RpcResult Bool :=
  ((trySend ch (.Unsub id)).1, .ok true)

/-- Embedding of `RpcSubApp::subscribe_ethop`. -/
def subscribe_ethop (ch : BoundedChannel EventNotifierRequest) (serialId : Nat)
    (action : ActionType) (subscriber : Nat) : BoundedChannel EventNotifierRequest :=
  (trySend ch (.Sub (.PriorityOp serialId action subscriber))).1

/-- Embedding of `RpcSubApp::unsubscribe_ethop`. -/
def unsubscribe_ethop (ch : BoundedChannel EventNotifierRequest) (id : Nat) :
    BoundedChannel EventNotifierRequest × RpcResult Bool :=
  ((trySend ch (.Unsub id)).1, .ok true)

/-- Embedding of `RpcSubApp::subscribe_account`. -/
def subscribe_account (ch : BoundedChannel EventNotifierRequest) (address : Nat)
    (action : ActionType) (subscriber : Nat) : BoundedChannel EventNotifierRequest :=
  (trySend ch (.Sub (.Account address action subscriber))).1

/-- Embedding of `RpcSubApp::unsubscribe_account`. -/
def unsubscribe_account (ch : BoundedChannel EventNotifierRequest) (id : Nat) :
    BoundedChannel EventNotifierRequest × RpcResult Bool :=
  ((trySend ch (.Unsub id)).1, .ok true)

/-- A full channel: zero capacity, so every try-send fails. -/
def fullEventSubChannel : BoundedChannel EventNotifierRequest :=
  { capacity := 0, buffer := [] }

/-- C7: the Notifier command channel is created with bounded capacity
2048, and on a full channel every subscribe and unsubscribe request is
enqueued with a non-blocking try-send whose failure is silently
discarded: the channel is left unchanged, the subscribe handlers return
to the caller as if nothing happened, and the unsubscribe handlers still
answer `Ok(true)` — no error reaches the websocket client and the server
never blocks. -/
theorem c7_bounded_channel_try_send_drop (ch : BoundedChannel EventNotifierRequest)
    (hash serialId address id subr : Nat) (action : ActionType)
    (hfull : ch.capacity ≤ ch.buffer.length) :
    mkEventSubChannel.capacity = 2048 ∧
    (∀ msg, trySend ch msg = (ch, false)) ∧
    subscribe_tx ch hash action subr = ch ∧
    subscribe_ethop ch serialId action subr = ch ∧
    subscribe_account ch address action subr = ch ∧
    unsubscribe_tx ch id = (ch, .ok true) ∧
    unsubscribe_ethop ch id = (ch, .ok true) ∧
    unsubscribe_account ch id = (ch, .ok true) := by
  have hns : ∀ msg : EventNotifierRequest, trySend ch msg = (ch, false) := by
    intro msg
    simp [trySend, Nat.not_lt.mpr hfull]
  refine ⟨rfl, hns, ?_, ?_, ?_, ?_, ?_, ?_⟩ <;>
    simp [subscribe_tx, subscribe_ethop, subscribe_account,
      unsubscribe_tx, unsubscribe_ethop, unsubscribe_account, hns]

/-- C7 witness: evaluation of the C7 theorem on a concrete full
channel. -/
theorem c7_bounded_channel_witness :
    mkEventSubChannel.capacity = 2048 ∧
    (∀ msg, trySend fullEventSubChannel msg = (fullEventSubChannel, false)) ∧
    subscribe_tx fullEventSubChannel 1 .commit 2 = fullEventSubChannel ∧
    subscribe_ethop fullEventSubChannel 3 .verify 2 = fullEventSubChannel ∧
    subscribe_account fullEventSubChannel 4 .commit 2 = fullEventSubChannel ∧
    unsubscribe_tx fullEventSubChannel 9 = (fullEventSubChannel, .ok true) ∧
    unsubscribe_ethop fullEventSubChannel 9 = (fullEventSubChannel, .ok true) ∧
    unsubscribe_account fullEventSubChannel 9 = (fullEventSubChannel, .ok true) :=
  c7_bounded_channel_try_send_drop fullEventSubChannel 1 3 4 9 2 .commit (by decide)

/-- C10: every unsubscribe RPC answers `Ok(true)` unconditionally — for
every channel state and every subscription id, including ids never
subscribed and commands dropped by a full channel — so the boolean result
carries no information about whether a subscription was removed. -/
theorem c10_unsubscribe_always_ok (ch : BoundedChannel EventNotifierRequest)
    (id : Nat) :
    (unsubscribe_tx ch id).2 = .ok true ∧
    (unsubscribe_ethop ch id).2 = .ok true ∧
    (unsubscribe_account ch id).2 = .ok true :=
  ⟨rfl, rfl, rfl⟩

/-! ## Configuration loading from environment variables

`config_options.rs` reads configuration through `get_env` / `parse_env`,
which look a variable up by name and parse it, panicking (modelled as an
`Except` error) when the variable is missing or unparseable.  The process
environment is a partial map from names to strings. -/

def EnvMap : Type := String → Option String

/-- Embedding of `get_env`: the raw variable value, or the missing-variable
panic message. -/
def get_env_model (env : EnvMap) (name : String) : Except String String :=
  match env name with
  | some v => .ok v
  | none => .error ("Env var " ++ name ++ " missing")

/-- Decimal parse of a string, `none` when empty or not all digits. -/
def parseNatString (s : String) : Option Nat :=
  match s.data with
  | [] => none
  | ds =>
    if ds.all (fun c => c.isDigit) then
      some (ds.foldl (fun acc c => acc * 10 + (c.toNat - 48)) 0)
    else none

/-- Embedding of `parse_env` at numeric type: parse the variable value as
a natural number. -/
def parse_env_nat (env : EnvMap) (name : String) : Except String Nat :=
  match get_env_model env name with
  | .error e => .error e
  | .ok v =>
    match parseNatString v with
    | some n => .ok n
    | none => .error ("Failed to parse environment variable " ++ name)

/-- The fields of `ProverOptions`; all intervals are millisecond counts
(`Duration::from_millis`). -/
structure ProverOptions where
  prepareDataInterval : Nat
  heartbeatInterval : Nat
  cycleWait : Nat
  goneTimeout : Nat
  deriving Repr, DecidableEq

/-- Embedding of `ProverOptions::from_env` (config_options.rs lines
90-107): the four prover variables are read, in source order, under the
names the code actually uses. -/
def proverOptions_from_env (env : EnvMap) : Except String ProverOptions := do
  let prepareDataInterval ← parse_env_nat env "PROVER_PREPARE_DATA_INTERVAL"
  let heartbeatInterval ← parse_env_nat env "PROVER_HEARTBEAT_INTERVAL"
  let cycleWait ← parse_env_nat env "PROVER_CYCLE_WAIT"
  let goneTimeout ← parse_env_nat env "PROVER_GONE_TIMEOUT"
  return ⟨prepareDataInterval, heartbeatInterval, cycleWait, goneTimeout⟩

/-- The environment variable names `ProverOptions::from_env` reads. -/
def proverOptionsEnvVars : List String :=
  ["PROVER_PREPARE_DATA_INTERVAL", "PROVER_HEARTBEAT_INTERVAL",
   "PROVER_CYCLE_WAIT", "PROVER_GONE_TIMEOUT"]

/-- The environment variable names `ConfigurationOptions::from_env`
(config_options.rs lines 210-251) can read, in source order, including
those read by `MiniblockTimings::from_env` and
`TokenPriceSource::from_env` and the conditionally read ones. -/
def configurationOptionsEnvVars : List String :=
  ["REST_API_BIND", "HTTP_RPC_API_BIND", "WS_API_BIND", "WEB3_URL",
   "GENESIS_TX_HASH", "CONTRACT_ADDR", "GOVERNANCE_ADDR",
   "OPERATOR_COMMIT_ETH_ADDRESS", "OPERATOR_FEE_ETH_ADDRESS",
   "OPERATOR_PRIVATE_KEY", "CHAIN_ID", "GAS_PRICE_FACTOR",
   "PROVER_SERVER_BIND", "CONFIRMATIONS_FOR_ETH_EVENT",
   "API_REQUESTS_CACHES_SIZE", "MAX_NUMBER_OF_WITHDRAWALS_PER_BLOCK",
   "ETH_WATCH_POLL_INTERVAL", "ETH_NETWORK", "IDLE_PROVERS",
   "FAST_BLOCK_MINIBLOCKS_ITERATIONS", "MINIBLOCKS_ITERATIONS",
   "MINIBLOCK_ITERATION_INTERVAL", "PROMETHEUS_EXPORT_PORT",
   "TOKEN_PRICE_SOURCE", "COINMARKETCAP_BASE_URL", "COINGECKO_BASE_URL",
   "WITNESS_GENERATORS", "TICKER_FAST_PROCESSING_COEFF"]

/-- The eight names the spec enumerates as the configuration inputs. -/
def claimedEnvVarNames : List String :=
  ["HEARTBEAT_INTERVAL_MS", "PROVER_CYCLE_WAIT_S", "PROVER_TIMEOUT_S",
   "PROVER_PREPARE_DATA_INTERVAL_MS", "PROVER_GONE_TIMEOUT_MS",
   "WS_API_BIND", "PROVER_SERVER_BIND", "API_REQUESTS_CACHES_SIZE"]

/-- An environment defining exactly the spec's eight claimed names, each
with a parseable value. -/
def claimedEnv : EnvMap :=
  fun n => if claimedEnvVarNames.contains n then some "1000" else none

/-- An environment defining exactly the four prover variable names the
code reads. -/
def actualProverEnv : EnvMap :=
  fun n => if proverOptionsEnvVars.contains n then some "1000" else none

/-- Helper: a variable lookup-and-parse only depends on the value of that
variable. -/
theorem parse_env_nat_congr (env env2 : EnvMap) (name : String)
    (h : env name = env2 name) :
    parse_env_nat env name = parse_env_nat env2 name := by
  simp [parse_env_nat, get_env_model, h]

/-- C8 counterexample: an environment that defines exactly the eight
variable names the spec enumerates (each with a parseable value) does
not satisfy the prover configuration loader — it fails at once on
`PROVER_PREPARE_DATA_INTERVAL`, a name the spec does not list — and none
of the spec's five renamed prover variables is read anywhere in the
configuration code, while `PROVER_HEARTBEAT_INTERVAL` is. -/
theorem c8_counterexample_env_names :
    proverOptions_from_env claimedEnv =
      .error "Env var PROVER_PREPARE_DATA_INTERVAL missing" ∧
    "HEARTBEAT_INTERVAL_MS" ∉ proverOptionsEnvVars ++ configurationOptionsEnvVars ∧
    "PROVER_CYCLE_WAIT_S" ∉ proverOptionsEnvVars ++ configurationOptionsEnvVars ∧
    "PROVER_TIMEOUT_S" ∉ proverOptionsEnvVars ++ configurationOptionsEnvVars ∧
    "PROVER_PREPARE_DATA_INTERVAL_MS" ∉ proverOptionsEnvVars ++ configurationOptionsEnvVars ∧
    "PROVER_GONE_TIMEOUT_MS" ∉ proverOptionsEnvVars ++ configurationOptionsEnvVars ∧
    "PROVER_HEARTBEAT_INTERVAL" ∈ proverOptionsEnvVars :=
  ⟨rfl, by decide, by decide, by decide, by decide, by decide, by decide⟩

/-- C8 as amended: the prover options are read from the environment
variables `PROVER_PREPARE_DATA_INTERVAL`, `PROVER_HEARTBEAT_INTERVAL`,
`PROVER_CYCLE_WAIT` and `PROVER_GONE_TIMEOUT` only (the loader's result
depends on no other name, and an environment defining exactly those four
names succeeds); the API configuration reads `WS_API_BIND`,
`PROVER_SERVER_BIND` and `API_REQUESTS_CACHES_SIZE` among its variables;
and no `PROVER_TIMEOUT_S` variable is read anywhere. -/
theorem c8_env_names_amended (env env2 : EnvMap)
    (h : ∀ n ∈ proverOptionsEnvVars, env n = env2 n) :
    proverOptions_from_env env = proverOptions_from_env env2 ∧
    "WS_API_BIND" ∈ configurationOptionsEnvVars ∧
    "PROVER_SERVER_BIND" ∈ configurationOptionsEnvVars ∧
    "API_REQUESTS_CACHES_SIZE" ∈ configurationOptionsEnvVars ∧
    "PROVER_TIMEOUT_S" ∉ proverOptionsEnvVars ++ configurationOptionsEnvVars ∧
    proverOptions_from_env actualProverEnv = .ok ⟨1000, 1000, 1000, 1000⟩ := by
  have h1 := parse_env_nat_congr env env2 "PROVER_PREPARE_DATA_INTERVAL"
    (h _ (by simp [proverOptionsEnvVars]))
  have h2 := parse_env_nat_congr env env2 "PROVER_HEARTBEAT_INTERVAL"
    (h _ (by simp [proverOptionsEnvVars]))
  have h3 := parse_env_nat_congr env env2 "PROVER_CYCLE_WAIT"
    (h _ (by simp [proverOptionsEnvVars]))
  have h4 := parse_env_nat_congr env env2 "PROVER_GONE_TIMEOUT"
    (h _ (by simp [proverOptionsEnvVars]))
  refine ⟨?_, by decide, by decide, by decide, by decide, rfl⟩
  simp only [proverOptions_from_env, h1, h2, h3, h4]

/-- C8 amended-claim witness: evaluation of the amended theorem with both
environments equal to the one defining exactly the four prover
variables. -/
theorem c8_env_names_witness :
    proverOptions_from_env actualProverEnv = proverOptions_from_env actualProverEnv ∧
    "WS_API_BIND" ∈ configurationOptionsEnvVars ∧
    "PROVER_SERVER_BIND" ∈ configurationOptionsEnvVars ∧
    "API_REQUESTS_CACHES_SIZE" ∈ configurationOptionsEnvVars ∧
    "PROVER_TIMEOUT_S" ∉ proverOptionsEnvVars ++ configurationOptionsEnvVars ∧
    proverOptions_from_env actualProverEnv = .ok ⟨1000, 1000, 1000, 1000⟩ :=
  c8_env_names_amended actualProverEnv actualProverEnv (fun _ _ => rfl)
